import Mathlib

set_option maxRecDepth 65536
set_option maxHeartbeats 1600000

/-!
Shallow embedding of the token-info pipeline of `AdvisoorInfoBot.py`:
provider fetch parsing (`fetch_token_metadata`, `fetch_top_holders`),
URL construction with percent-encoding (`safely_quote`, the four URL
builders), the derived-metric computations and the report composition
(`create_message`).  Numbers are modelled as rationals; values that the
Python code represents by an absent key or by the string N/A are
modelled as `Option`; Python expressions that can raise
`ZeroDivisionError` are modelled in the `Except PyError` monad via
`pyDiv`.
-/

/-- The one kind of runtime error the modelled code can raise. -/
inductive PyError where
  | zeroDivisionError
deriving DecidableEq

/-- Python division `a / b`: raises `ZeroDivisionError` when `b == 0`. -/
def pyDiv (a b : ℚ) : Except PyError ℚ :=
  if b = 0 then .error .zeroDivisionError else .ok (a / b)

/-- Floor of a rational, computed from its numerator and denominator. -/
def ratFloor (q : ℚ) : ℤ := q.num.fdiv (q.den : ℤ)

/-- Round-half-even of a rational to an integer, the rounding used by
Python string formatting such as `"{:.2f}"` and `"{:,.0f}"`. -/
def roundHalfEven (q : ℚ) : ℤ :=
  let f := ratFloor q
  let r := q - (f : ℚ)
  if r < 1/2 then f
  else if r > 1/2 then f + 1
  else if f % 2 = 0 then f else f + 1

/-- Two-digit zero-padded rendering of a natural number below 100. -/
def twoDigits (m : ℕ) : String := (if m < 10 then "0" else "") ++ toString m

/-- Python `"{:.2f}".format(q)`: fixed-point rendering with two decimal
places, rounding half to even. -/
def fmt2 (q : ℚ) : String :=
  let n := roundHalfEven (q * 100)
  (if n < 0 then "-" else "") ++ toString (n.natAbs / 100) ++ "." ++ twoDigits (n.natAbs % 100)

/-- Insert a comma after every three characters, counting from the head
of the (least-significant-first) digit list. -/
def groupCommas : List Char → List Char
  | a :: b :: c :: rest =>
    if rest.isEmpty then a :: b :: c :: rest
    else a :: b :: c :: Char.ofNat 44 :: groupCommas rest
  | l => l

/-- Decimal rendering of a natural number with thousands separators. -/
def natCommas (n : ℕ) : String :=
  String.mk (groupCommas (toString n).data.reverse).reverse

/-- Decimal rendering of an integer with thousands separators. -/
def intCommas (z : ℤ) : String := (if z < 0 then "-" else "") ++ natCommas z.natAbs

/-- Python `"${:,.0f}".format(q)`: currency rendering, rounded to an
integer with thousands separators. -/
def fmtCurrency (q : ℚ) : String := "$" ++ intCommas (roundHalfEven q)

/-- Python `"{:,.0f}".format(q)`: integer rounding with thousands
separators (used for the total-supply line). -/
def fmtThousands0 (q : ℚ) : String := intCommas (roundHalfEven q)

/-- Smallest number of decimal digits that renders the rational exactly,
if at most 30 suffice. -/
def decExp (q : ℚ) : Option ℕ := (List.range 31).find? (fun k => (q * 10 ^ k).den = 1)

/-- Fixed-point fraction rendering: `n` scaled down by `10 ^ k`. -/
def fixedFrac (n : ℕ) (k : ℕ) : String :=
  let s := toString (n % 10 ^ k)
  toString (n / 10 ^ k) ++ "." ++ String.mk (List.replicate (k - s.length) (Char.ofNat 48)) ++ s

/-- Models Python `str()` applied to a float price: finite-decimal
values print with their minimal number of fractional digits (integers
with a trailing `.0`). -/
def pyFloatStr (q : ℚ) : String :=
  match decExp q with
  | some 0 => toString q.num ++ ".0"
  | some k => (if q < 0 then "-" else "") ++ fixedFrac (q * 10 ^ k).num.natAbs k
  | none => toString q.num ++ "/" ++ toString q.den

/-- Characters that `urllib.parse.quote` leaves unescaped with the
default `safe` argument: ASCII alphanumerics, `_ . - ~` and `/`. -/
def isQuoteSafe (c : Char) : Bool :=
  c.isAlphanum || c.toNat = 95 || c.toNat = 46 || c.toNat = 45 || c.toNat = 126 || c.toNat = 47

/-- Uppercase hexadecimal digit for a value below 16. -/
def hexDigit (n : ℕ) : Char :=
  if n < 10 then Char.ofNat (48 + n) else Char.ofNat (55 + n)

/-- The three characters `%XY` that percent-encode one byte. -/
def pctByteChars (b : ℕ) : List Char :=
  [Char.ofNat 37, hexDigit (b / 16), hexDigit (b % 16)]

/-- UTF-8 byte sequence of a character. -/
def utf8Bytes (c : Char) : List ℕ :=
  let n := c.toNat
  if n < 128 then [n]
  else if n < 2048 then [192 + n / 64, 128 + n % 64]
  else if n < 65536 then [224 + n / 4096, 128 + (n / 64) % 64, 128 + n % 64]
  else [240 + n / 262144, 128 + (n / 4096) % 64, 128 + (n / 64) % 64, 128 + n % 64]

/-- Per-character encoding step of `urllib.parse.quote`. -/
def quoteChar (c : Char) : List Char :=
  if isQuoteSafe c then [c] else (utf8Bytes c).flatMap pctByteChars

/-- `urllib.parse.quote` with its default `safe` set, imported in the
source as `safely_quote`. -/
def safely_quote (s : String) : String := String.mk (s.data.flatMap quoteChar)

/-- Market endpoint URL built by `fetch_token_metadata`. -/
def market_url (token_address : String) (timestamp_one_hour_ago timestamp_now : ℤ) : String :=
  "https://pro-api.solscan.io/v1.0/market/token/" ++ safely_quote token_address ++
    "?limit=10&offset=0&startTime=" ++ toString timestamp_one_hour_ago ++
    "&endTime=" ++ toString timestamp_now

/-- Meta endpoint URL built by `fetch_token_metadata`. -/
def meta_url (token_address : String) : String :=
  "https://pro-api.solscan.io/v1.0/token/meta?tokenAddress=" ++ safely_quote token_address

/-- Holders endpoint URL built by `fetch_top_holders`. -/
def holders_url (token_address : String) : String :=
  "https://pro-api.solscan.io/v1.0/token/holders?tokenAddress=" ++ safely_quote token_address ++
    "&limit=10&offset=0&fromAmount=0"

/-- Account-transactions URL built by `fetch_latest_transaction`; the
source interpolates `account` without any encoding. -/
def account_transactions_url (account : String) : String :=
  "https://pro-api.solscan.io/v1.0/account/transactions?account=" ++ account ++ "&limit=1"

/-- A character that may legitimately appear in a percent-encoded
identifier: a quote-safe character or the escape character itself. -/
def urlSafeOutput (c : Char) : Bool := isQuoteSafe c || c.toNat = 37

/-- One entry of the `markets` list in the market-endpoint response;
`volume24h` and `liquidity` may each be absent or null. -/
structure MarketEntry where
  volume24h : Option ℚ
  liquidity : Option ℚ
deriving DecidableEq

/-- Parsed JSON body of the market-endpoint response: `markets` is
`none` when the key is absent, `some []` when present but empty. -/
structure MarketData where
  markets : Option (List MarketEntry)
  priceChange24h : Option ℚ
  numHolders : Option ℕ
deriving DecidableEq

/-- Parsed JSON body of the meta-endpoint response; every field is
optional, matching the `.get` accesses in the source. -/
structure MetaData where
  symbol : Option String
  name : Option String
  decimals : Option ℕ
  icon : Option String
  price : Option ℚ
  supply : Option ℕ
  tokenAuthority : Option String
  website : Option String
  twitter : Option String
  tag : Option String
  coingeckoId : Option String
  holder : Option ℕ
deriving DecidableEq

/-- One holder record returned by the holders endpoint. -/
structure Holder where
  address : String
  amount : ℚ
deriving DecidableEq

/-- Supply scaling performed inside `fetch_token_metadata`:
`total_supply_raw / (10 ** decimals) if decimals else total_supply_raw`. -/
def normalize_supply (total_supply_raw : ℕ) (decimals : ℕ) : ℚ :=
  if decimals ≠ 0 then (total_supply_raw : ℚ) / 10 ^ decimals else (total_supply_raw : ℚ)

/-- Sum of `volume24h` over the market entries where it is present. -/
def sum_volume (markets : List MarketEntry) : ℚ :=
  (markets.filterMap (fun m => m.volume24h)).sum

/-- Sum of `liquidity` over the market entries where it is present. -/
def sum_liquidity (markets : List MarketEntry) : ℚ :=
  (markets.filterMap (fun m => m.liquidity)).sum

/-- The dictionary `fetch_token_metadata` builds on success.
`price_usdt = none` models the default string value N/A. -/
structure TokenMetadata where
  token_symbol : String
  token_name : String
  decimals : ℕ
  icon_url : Option String
  price_usdt : Option ℚ
  volume_usdt : ℚ
  total_liquidity : ℚ
  price_change_24h : Option ℚ
  total_supply : ℚ
  num_holders : Option ℕ
  token_authority : Option String
  website : Option String
  twitter : Option String
  tag : Option String
  coingeckoId : Option String
  holder : Option ℕ
deriving DecidableEq

/-- `fetch_token_metadata`, abstracted over the two HTTP statuses and
parsed response bodies: returns the populated dictionary only when both
requests succeed with status 200 and the market body has a non-empty
`markets` list, and `none` (Python `None`) otherwise. -/
def fetch_token_metadata (market_status meta_status : ℕ)
    (market_data : MarketData) (meta_data : MetaData) : Option TokenMetadata :=
  if market_status = 200 ∧ meta_status = 200 then
    match market_data.markets with
    | some (m :: ms) =>
      let decimals := meta_data.decimals.getD 0
      some {
        token_symbol := meta_data.symbol.getD "Unknown"
        token_name := meta_data.name.getD "Unknown"
        decimals := decimals
        icon_url := meta_data.icon
        price_usdt := meta_data.price
        volume_usdt := sum_volume (m :: ms)
        total_liquidity := sum_liquidity (m :: ms)
        price_change_24h := market_data.priceChange24h
        total_supply := normalize_supply (meta_data.supply.getD 0) decimals
        num_holders := market_data.numHolders
        token_authority := meta_data.tokenAuthority
        website := meta_data.website
        twitter := meta_data.twitter
        tag := meta_data.tag
        coingeckoId := meta_data.coingeckoId
        holder := meta_data.holder }
    | _ => none
  else none

/-- `fetch_top_holders`: the `data` list on HTTP 200 with the key
present, the empty list otherwise. -/
def fetch_top_holders (status : ℕ) (body : Option (List Holder)) : List Holder :=
  if status = 200 then body.getD [] else []

/-- The price-change branch of `create_message` (source lines 175-181):
N/A when the price is the N/A marker or the 24h change is missing,
otherwise `"{:.2f}%".format(change / (price - change) * 100)`, which
raises when `price - change == 0`. -/
def price_change_str (price_usdt price_change_24h : Option ℚ) : Except PyError String :=
  match price_usdt, price_change_24h with
  | some p, some c => (pyDiv c (p - c)).map (fun r => fmt2 (r * 100) ++ "%")
  | _, _ => .ok "N/A"

/-- `market_cap = total_supply * price_usdt if price_usdt != 'N/A' else 0`. -/
def market_cap (total_supply : ℚ) (price_usdt : Option ℚ) : ℚ :=
  match price_usdt with
  | some p => total_supply * p
  | none => 0

/-- Python truthiness guard `x or 1`, as applied to the market cap. -/
def or1 (x : ℚ) : ℚ := if x = 0 then 1 else x

/-- `volume_market_cap_ratio = total_volume / (market_cap or 1)`. -/
def volume_market_cap_ratio_val (total_volume mc : ℚ) : ℚ := total_volume / or1 mc

/-- `"{:.2f}x".format(volume_market_cap_ratio)`. -/
def volume_market_cap_ratio_str (total_volume mc : ℚ) : String :=
  fmt2 (volume_market_cap_ratio_val total_volume mc) ++ "x"

/-- `dex_liquidity_market_cap_ratio = dex_liquidity / (market_cap or 1)`. -/
def dex_liquidity_market_cap_ratio_val (dex_liquidity mc : ℚ) : ℚ := dex_liquidity / or1 mc

/-- `"{:.2f}%".format(dex_liquidity_market_cap_ratio * 100)`. -/
def dex_liquidity_market_cap_ratio_str (dex_liquidity mc : ℚ) : String :=
  fmt2 (dex_liquidity_market_cap_ratio_val dex_liquidity mc * 100) ++ "%"

/-- `"🟢" if token_authority is None else "🔴"`. -/
def token_authority_str (token_authority : Option String) : String :=
  match token_authority with
  | none => "🟢"
  | some _ => "🔴"

/-- `sum(holder['amount'] for holder in top_holders[:5])`. -/
def top5_sum (top_holders : List Holder) : ℚ :=
  ((top_holders.take 5).map (fun h => h.amount)).sum

/-- `sum(holder['amount'] for holder in top_holders[:10])`. -/
def top10_sum (top_holders : List Holder) : ℚ :=
  ((top_holders.take 10).map (fun h => h.amount)).sum

/-- The price line interpolation `f"📈 Price: ${price_usdt}"`. -/
def price_display (price_usdt : Option ℚ) : String :=
  match price_usdt with
  | some q => pyFloatStr q
  | none => "N/A"

/-- One holder link of the distribution section:
`percentage = holder['amount'] / total_supply * 100`, raising when
`total_supply == 0`, rendered as a percent link. -/
def holder_link (total_supply : ℚ) (h : Holder) : Except PyError String := do
  let r ← pyDiv h.amount total_supply
  pure ("<a href=\x27https://solscan.io/token/" ++ safely_quote h.address ++ "\x27>" ++
    fmt2 (r * 100) ++ "%</a>")

/-- The holder-distribution section (source lines 206-216): per-holder
percentage links and the top-5/top-10 sums, each division raising when
`total_supply == 0`; empty when `top_holders` is empty. -/
def holder_section (tm : TokenMetadata) (top_holders : List Holder) :
    Except PyError (List String) :=
  if top_holders.isEmpty then .ok [] else do
    let holder_links ← top_holders.mapM (holder_link tm.total_supply)
    let t5 ← pyDiv (top5_sum top_holders) tm.total_supply
    let t10 ← pyDiv (top10_sum top_holders) tm.total_supply
    pure ["<b>Holder Distribution</b>",
      "Top10 Distro: " ++ String.intercalate " | " holder_links,
      "Σ Top 5: " ++ fmt2 (t5 * 100) ++ "% | Σ Top 10: " ++ fmt2 (t10 * 100) ++ "%"]

/-- The two-element message list of the not-found branch of
`create_message` (source lines 137-142). -/
def no_data_lines (token_address : String) : List String :=
  ["", "🔫 No data available for the provided token address 🔫\n\n" ++
    "<a href=\x27https://solscan.io/token/" ++ safely_quote token_address ++
    "\x27>Go to Contract Address</a>\n"]

/-- The full message list of the found branch of `create_message`,
given the already-computed price-change string and holder section. -/
def found_lines (token_address : String) (tm : TokenMetadata)
    (price_change_24h_str : String) (holder_sec : List String) : List String :=
  let mc := market_cap tm.total_supply tm.price_usdt
  ["",
   "🤵🏼 <b>Advisoor Token Info Bot</b> 🤵🏼\n",
   "Token Name: " ++ tm.token_name ++ " \n",
   "<b>Token Overview</b>",
   "🔣 Symbol: " ++ tm.token_symbol,
   "📈 Price: $" ++ price_display tm.price_usdt,
   "🌛 Market Cap: " ++ fmtCurrency mc,
   "🪙 Total Supply: " ++ fmtThousands0 tm.total_supply,
   "📍 Token Authority: " ++ token_authority_str tm.token_authority]
  ++ holder_sec ++
  ["<b>Liquidity</b>",
   "💧 DEX Liquidity: " ++ fmtCurrency tm.total_liquidity,
   "🔍 DEX Liquidity / Market Cap: " ++ dex_liquidity_market_cap_ratio_str tm.total_liquidity mc,
   "<b>Market Activity</b>",
   "💹 Price Change (24h): " ++ price_change_24h_str,
   "📊 Total Volume (24h): " ++ fmtCurrency tm.volume_usdt,
   "🔍 Volume / Market Cap: " ++ volume_market_cap_ratio_str tm.volume_usdt mc,
   "<b>Key Links</b>",
   "<a href=\x27https://solscan.io/token/" ++ safely_quote token_address ++
     "\x27>📄 Contract Address</a>"]
  ++ (match tm.coingeckoId with
      | some g => ["<a href=\x27https://www.coingecko.com/en/coins/" ++ safely_quote g ++
          "\x27>🦎 CoinGecko</a>"]
      | none => [])
  ++ (match tm.tag with
      | some t => ["<a href=\x27https://solscan.io/account/" ++ safely_quote t ++
          "\x27>🔍 Tag</a>"]
      | none => [])
  ++ (match tm.twitter with
      | some tw => ["<a href=\x27https://twitter.com/" ++ safely_quote tw ++
          "\x27>🐦 Twitter</a>"]
      | none => [])
  ++ (match tm.website with
      | some w => ["<a href=\x27" ++ safely_quote w ++ "\x27>🌐 Website</a>"]
      | none => [])
  ++ ["<a href=\x27https://rugcheck.xyz/tokens/" ++ safely_quote token_address ++
        "\x27>🥸 RugCheck</a>",
      "<a href=\x27https://birdeye.so/token/" ++ safely_quote token_address ++
        "?chain=solana\x27>🦅 BirdEye</a>"]

/-- `create_message`, abstracted over the fetched metadata and holder
list: the not-found branch when the metadata is `None`, otherwise the
full report, propagating any `ZeroDivisionError` raised by the
price-change or holder-concentration computations. -/
def create_message (token_address : String) (token_metadata : Option TokenMetadata)
    (top_holders : List Holder) : Except PyError (List String) :=
  match token_metadata with
  | none => .ok (no_data_lines token_address)
  | some tm =>
    (price_change_str tm.price_usdt tm.price_change_24h).bind (fun pcs =>
      (holder_section tm top_holders).bind (fun hsec =>
        .ok (found_lines token_address tm pcs hsec)))

/-- `"\n".join(message_lines)`. -/
def render (message_lines : List String) : String := String.intercalate "\n" message_lines

/-- Number of (possibly overlapping) occurrences of a pattern in a
character list. -/
def countSub (pat : List Char) : List Char → ℕ
  | [] => 0
  | c :: rest => (if pat.isPrefixOf (c :: rest) then 1 else 0) + countSub pat rest

/-- Number of occurrences of a pattern inside a string. -/
def countOcc (pat s : String) : ℕ := countSub pat.data s.data

/-- The value `holder_link` produces when `total_supply` is nonzero. -/
def holder_link_ok (total_supply : ℚ) (h : Holder) : String :=
  "<a href=\x27https://solscan.io/token/" ++ safely_quote h.address ++ "\x27>" ++
    fmt2 (h.amount / total_supply * 100) ++ "%</a>"

/-- The holder-distribution section as actually produced whenever
`total_supply` is nonzero (the division-free description). -/
def holder_lines_total_nonzero (tm : TokenMetadata) (top_holders : List Holder) : List String :=
  if top_holders.isEmpty then [] else
    ["<b>Holder Distribution</b>",
     "Top10 Distro: " ++
       String.intercalate " | " (top_holders.map (holder_link_ok tm.total_supply)),
     "Σ Top 5: " ++ fmt2 (top5_sum top_holders / tm.total_supply * 100) ++
       "% | Σ Top 10: " ++ fmt2 (top10_sum top_holders / tm.total_supply * 100) ++ "%"]

/-- A baseline found-state token record for concrete scenarios: no
price, no 24h change, supply 1000, no links, empty market figures. -/
def tmBase : TokenMetadata :=
  { token_symbol := "TKN", token_name := "Token", decimals := 0, icon_url := none,
    price_usdt := none, volume_usdt := 0, total_liquidity := 0, price_change_24h := none,
    total_supply := 1000, num_holders := none, token_authority := none,
    website := none, twitter := none, tag := none, coingeckoId := none, holder := none }

/-- Snapshot whose reconstructed prior price `price - change` is zero. -/
def tmPriorZero : TokenMetadata := { tmBase with price_usdt := some 1, price_change_24h := some 1 }

/-- Snapshot with a zero total supply. -/
def tmZeroSupply : TokenMetadata := { tmBase with total_supply := 0 }

/-- Snapshot with unknown price (hence unknown market cap) and a 24h
volume of 500. -/
def tmVol500 : TokenMetadata := { tmBase with volume_usdt := 500 }

/-- A single concrete holder. -/
def holderA : Holder := { address := "HA", amount := 5 }

/-- Three holders sorted by descending amount. -/
def sampleHolders : List Holder :=
  [{ address := "A1", amount := 50 }, { address := "B2", amount := 30 },
   { address := "C3", amount := 20 }]

/-- A market body whose `markets` list is present but empty. -/
def marketNoMarkets : MarketData :=
  { markets := some [], priceChange24h := none, numHolders := none }

/-- A fully populated meta body, for the scenario where the meta request
succeeds while the market request yields no usable data. -/
def metaFull : MetaData :=
  { symbol := some "TKN", name := some "Token", decimals := some 0, icon := none,
    price := some 1, supply := some 1000, tokenAuthority := none, website := none,
    twitter := none, tag := none, coingeckoId := none, holder := none }

theorem pyDiv_zero (a : ℚ) : pyDiv a 0 = .error .zeroDivisionError := by
  simp [pyDiv]

theorem pyDiv_ne_zero (a b : ℚ) (h : b ≠ 0) : pyDiv a b = .ok (a / b) := by
  simp [pyDiv, h]

/-- C5: for every raw integer supply and decimals, the normalized total
supply equals `raw_supply / 10 ^ decimals`; an absent decimals value
defaults to 0 and performs no scaling; normalizing 0 at 0 yields 0. -/
theorem normalize_supply_spec (raw d : ℕ) :
    normalize_supply raw d = (raw : ℚ) / 10 ^ d ∧
    normalize_supply raw ((none : Option ℕ).getD 0) = (raw : ℚ) ∧
    normalize_supply 0 0 = 0 := by
  refine ⟨?_, rfl, rfl⟩
  unfold normalize_supply
  split
  · rfl
  · rename_i h
    push_neg at h
    subst h
    norm_num

/-- C4: with a known price `p` and present change `c` such that the
reconstructed prior price `p - c` is nonzero, the rendered percentage is
`{:.2f}` of `c / (p - c) * 100`; at `p = 1`, `c = 0.10` it is 11.11%. -/
theorem price_change_formula (p c : ℚ) (h : p - c ≠ 0) :
    price_change_str (some p) (some c) = .ok (fmt2 (c / (p - c) * 100) ++ "%") ∧
    price_change_str (some 1) (some (1/10)) = .ok "11.11%" := by
  constructor
  · simp [price_change_str, pyDiv_ne_zero _ _ h, Except.map]
  · with_unfolding_all rfl

theorem price_change_formula_w :
    price_change_str (some 1) (some (1/10)) =
      .ok (fmt2 ((1/10 : ℚ) / (1 - 1/10) * 100) ++ "%") :=
  (price_change_formula 1 (1/10) (by norm_num)).1

/-- C3: the volume and liquidity ratios divide by the market cap, with 1
substituted exactly when the market cap is zero (which is also how an
unknown price is represented); a snapshot with unknown market cap and
24h volume 500 renders the volume ratio as 500.00x. -/
theorem mcap_ratio_guard (total_volume dex_liquidity mc ts : ℚ) :
    (mc ≠ 0 → volume_market_cap_ratio_val total_volume mc = total_volume / mc) ∧
    (mc = 0 → volume_market_cap_ratio_val total_volume mc = total_volume / 1) ∧
    (mc ≠ 0 → dex_liquidity_market_cap_ratio_val dex_liquidity mc = dex_liquidity / mc) ∧
    (mc = 0 → dex_liquidity_market_cap_ratio_val dex_liquidity mc = dex_liquidity / 1) ∧
    market_cap ts none = 0 ∧
    volume_market_cap_ratio_str 500 (market_cap ts none) = "500.00x" ∧
    "🔍 Volume / Market Cap: 500.00x" ∈
      (create_message ("a") (some tmVol500) []).toOption.getD [] := by
  refine ⟨?_, ?_, ?_, ?_, rfl, ?_, ?_⟩
  · intro h; simp [volume_market_cap_ratio_val, or1, h]
  · intro h; simp [volume_market_cap_ratio_val, or1, h]
  · intro h; simp [dex_liquidity_market_cap_ratio_val, or1, h]
  · intro h; simp [dex_liquidity_market_cap_ratio_val, or1, h]
  · have h0 : market_cap ts none = 0 := rfl
    rw [h0]
    with_unfolding_all rfl
  · with_unfolding_all decide

theorem mcap_ratio_guard_w :
    volume_market_cap_ratio_val 500 2 = 500 / 2 ∧
    volume_market_cap_ratio_val 500 0 = 500 / 1 ∧
    dex_liquidity_market_cap_ratio_val 40 0 = 40 / 1 :=
  ⟨(mcap_ratio_guard 500 40 2 0).1 (by norm_num),
   (mcap_ratio_guard 500 40 0 0).2.1 rfl,
   (mcap_ratio_guard 500 40 0 0).2.2.2.1 rfl⟩

/-- C1 (amended): a missing price or missing 24h change yields the N/A
marker, but a zero reconstructed prior price makes the computation (and
hence the whole report) raise ZeroDivisionError instead of producing
the unknown marker. -/
theorem price_change_unknown_policy (p c : ℚ) (op : Option ℚ) (tm : TokenMetadata)
    (addr : String) (ths : List Holder) :
    price_change_str none op = .ok "N/A" ∧
    price_change_str op none = .ok "N/A" ∧
    (p - c = 0 → price_change_str (some p) (some c) = .error .zeroDivisionError) ∧
    (tm.price_usdt = some p → tm.price_change_24h = some c → p - c = 0 →
      create_message addr (some tm) ths = .error .zeroDivisionError) := by
  have h1 : price_change_str none op = .ok "N/A" := by cases op <;> rfl
  have h2 : price_change_str op none = .ok "N/A" := by cases op <;> rfl
  have h3 : p - c = 0 → price_change_str (some p) (some c) = .error .zeroDivisionError := by
    intro h
    simp [price_change_str, pyDiv, h, Except.map]
  refine ⟨h1, h2, h3, ?_⟩
  intro hp hc h
  simp [create_message, hp, hc, h3 h, Except.bind]

/-- C1 counterexample: at price 1 and 24h change 1 the prior price is
zero and `create_message` raises instead of rendering N/A. -/
theorem price_change_raises_cex :
    create_message ("a") (some tmPriorZero) [] = .error .zeroDivisionError := by
  with_unfolding_all rfl

theorem price_change_unknown_policy_w :
    price_change_str none (some 1) = .ok "N/A" ∧
    price_change_str (some 1) (some 1) = .error .zeroDivisionError ∧
    create_message ("b") (some tmPriorZero) [] = .error .zeroDivisionError :=
  ⟨(price_change_unknown_policy 1 1 (some 1) tmPriorZero ("b") []).1,
   (price_change_unknown_policy 1 1 (some 1) tmPriorZero ("b") []).2.2.1 (by norm_num),
   (price_change_unknown_policy 1 1 (some 1) tmPriorZero ("b") []).2.2.2 rfl rfl (by norm_num)⟩

theorem mapM_ok {α β : Type} (f : α → Except PyError β) (g : α → β) (l : List α)
    (h : ∀ x ∈ l, f x = .ok (g x)) : l.mapM f = .ok (l.map g) := by
  induction l with
  | nil => rfl
  | cons a t ih =>
    rw [List.mapM_cons, h a (by simp)]
    rw [ih (fun x hx => h x (by simp [hx]))]
    rfl

theorem mapM_error_head {α β : Type} (f : α → Except PyError β) (a : α) (t : List α)
    (e : PyError) (h : f a = .error e) : ((a :: t).mapM f : Except PyError (List β)) = .error e := by
  rw [List.mapM_cons, h]
  rfl

theorem holder_link_of_ne (total : ℚ) (h : total ≠ 0) (x : Holder) :
    holder_link total x = .ok (holder_link_ok total x) := by
  simp [holder_link, holder_link_ok, pyDiv_ne_zero _ _ h, Except.bind]

/-- C2 (amended): when `total_supply` is nonzero each holder's rendered
concentration is `amount / total_supply * 100` (and the top-5/top-10
sums likewise), but when `total_supply` is zero and the holder list is
non-empty the computation raises ZeroDivisionError, aborting the whole
report, rather than producing the unknown marker. -/
theorem holder_concentration_policy (tm : TokenMetadata) (ths : List Holder) (addr : String) :
    (tm.total_supply = 0 → ths ≠ [] → holder_section tm ths = .error .zeroDivisionError) ∧
    (tm.total_supply ≠ 0 → holder_section tm ths = .ok (holder_lines_total_nonzero tm ths)) ∧
    (tm.price_usdt = none → tm.total_supply = 0 → ths ≠ [] →
      create_message addr (some tm) ths = .error .zeroDivisionError) := by
  have hA : tm.total_supply = 0 → ths ≠ [] →
      holder_section tm ths = .error .zeroDivisionError := by
    intro h0 hne
    cases ths with
    | nil => exact absurd rfl hne
    | cons a t =>
      have hl : holder_link tm.total_supply a = .error .zeroDivisionError := by
        simp [holder_link, h0, pyDiv, Except.bind]
      unfold holder_section
      rw [if_neg (by simp)]
      rw [mapM_error_head _ a t _ hl]
      rfl
  refine ⟨hA, ?_, ?_⟩
  · intro h
    by_cases he : ths.isEmpty
    · simp [holder_section, holder_lines_total_nonzero, he]
    · unfold holder_section holder_lines_total_nonzero
      rw [if_neg he, if_neg he]
      rw [mapM_ok (holder_link tm.total_supply) (holder_link_ok tm.total_supply) ths
        (fun x _ => holder_link_of_ne _ h x)]
      rw [pyDiv_ne_zero _ _ h, pyDiv_ne_zero _ _ h]
      rfl
  · intro hpn h0 hne
    have hpc : price_change_str none tm.price_change_24h = .ok "N/A" := by
      cases tm.price_change_24h <;> rfl
    simp [create_message, hpn, hpc, hA h0 hne, Except.bind]

/-- C2 counterexample: with zero total supply and one holder, the
holder-concentration computation raises instead of rendering an unknown
marker. -/
theorem holder_zero_supply_cex :
    holder_section tmZeroSupply [holderA] = .error .zeroDivisionError := by
  with_unfolding_all rfl

theorem holder_concentration_policy_w :
    holder_section tmZeroSupply [holderA] = .error .zeroDivisionError ∧
    holder_section tmBase sampleHolders = .ok (holder_lines_total_nonzero tmBase sampleHolders) ∧
    create_message ("c") (some tmZeroSupply) [holderA] = .error .zeroDivisionError :=
  ⟨(holder_concentration_policy tmZeroSupply [holderA] ("c")).1 rfl (by simp),
   (holder_concentration_policy tmBase sampleHolders ("c")).2.1 (by norm_num [tmBase]),
   (holder_concentration_policy tmZeroSupply [holderA] ("c")).2.2 rfl rfl (by simp)⟩

/-- C9 (amended): fields carried as the explicit N/A marker (price,
price change) render as the literal placeholder, but the market cap of
an unknown-price snapshot is computed as 0 and renders as the zero
currency amount, not as a placeholder. -/
theorem unknown_rendering (op : Option ℚ) (ts : ℚ) :
    price_display none = "N/A" ∧
    price_change_str none op = .ok "N/A" ∧
    market_cap ts none = 0 ∧
    fmtCurrency (market_cap ts none) = "$0" ∧
    "📈 Price: $N/A" ∈ (create_message ("a") (some tmBase) []).toOption.getD [] ∧
    "💹 Price Change (24h): N/A" ∈ (create_message ("a") (some tmBase) []).toOption.getD [] ∧
    "🌛 Market Cap: $0" ∈ (create_message ("a") (some tmBase) []).toOption.getD [] := by
  refine ⟨rfl, ?_, rfl, ?_, ?_, ?_, ?_⟩
  · cases op <;> rfl
  · have h0 : market_cap ts none = 0 := rfl
    rw [h0]
    with_unfolding_all rfl
  · with_unfolding_all decide
  · with_unfolding_all decide
  · with_unfolding_all decide

/-- C9 counterexample: a found-state snapshot with unknown price renders
its market cap as the zero currency amount, not as the placeholder. -/
theorem market_cap_zero_render_cex :
    tmBase.price_usdt = none ∧
    "🌛 Market Cap: $0" ∈ (create_message ("a") (some tmBase) []).toOption.getD [] :=
  ⟨rfl, by with_unfolding_all decide⟩

/-- C6: a non-200 status on either request, or a missing or empty
market list, makes the fetch yield the no-data outcome (not an error),
and a query with no usable data renders exactly the two-element no-data
message: one explorer link and no section headers. -/
theorem provider_no_data (mS tS : ℕ) (mB : MarketData) (tB : MetaData)
    (addr : String) (ths : List Holder) :
    (mS ≠ 200 ∨ tS ≠ 200 → fetch_token_metadata mS tS mB tB = none) ∧
    (mB.markets = none ∨ mB.markets = some [] → fetch_token_metadata mS tS mB tB = none) ∧
    create_message addr none ths = .ok (no_data_lines addr) ∧
    countOcc ("<a href") (render (no_data_lines ("TOKEN_NOT_FOUND"))) = 1 ∧
    countOcc ("<b>") (render (no_data_lines ("TOKEN_NOT_FOUND"))) = 0 := by
  refine ⟨?_, ?_, rfl, ?_, ?_⟩
  · intro h
    unfold fetch_token_metadata
    rw [if_neg]
    intro hc
    rcases h with h | h
    · exact h hc.1
    · exact h hc.2
  · intro h
    unfold fetch_token_metadata
    rcases h with h | h <;> rw [h] <;> split <;> rfl
  · with_unfolding_all decide
  · with_unfolding_all decide

theorem provider_no_data_w :
    fetch_token_metadata 404 200 marketNoMarkets metaFull = none ∧
    fetch_token_metadata 200 200 marketNoMarkets metaFull = none :=
  ⟨(provider_no_data 404 200 marketNoMarkets metaFull ("a") []).1 (Or.inl (by norm_num)),
   (provider_no_data 200 200 marketNoMarkets metaFull ("a") []).2.1 (Or.inr rfl)⟩

/-- C10: the fetch yields a populated record exactly when both requests
return 200 and the market list is non-empty; in particular a successful
meta response paired with an empty market list still renders the
not-found report. -/
theorem fetch_gating (mS tS : ℕ) (mB : MarketData) (tB : MetaData) :
    ((fetch_token_metadata mS tS mB tB).isSome ↔
      mS = 200 ∧ tS = 200 ∧ ∃ e es, mB.markets = some (e :: es)) ∧
    (∀ addr ths, mB.markets = some [] →
      create_message addr (fetch_token_metadata mS tS mB tB) ths =
        .ok (no_data_lines addr)) := by
  constructor
  · unfold fetch_token_metadata
    by_cases h : mS = 200 ∧ tS = 200
    · rw [if_pos h]
      obtain ⟨h1, h2⟩ := h
      rcases hm : mB.markets with _ | l
      · simp [hm]
      · cases l with
        | nil => simp [hm]
        | cons e es => simp [hm, h1, h2]
    · rw [if_neg h]
      simp only [Option.isSome_none, Bool.false_eq_true, false_iff]
      intro hc
      exact h ⟨hc.1, hc.2.1⟩
  · intro addr ths hm
    have hf : fetch_token_metadata mS tS mB tB = none := by
      unfold fetch_token_metadata
      rw [hm]
      split <;> rfl
    rw [hf]
    rfl

theorem fetch_gating_w :
    create_message ("a") (fetch_token_metadata 200 200 marketNoMarkets metaFull) [] =
      .ok (no_data_lines ("a")) :=
  (fetch_gating 200 200 marketNoMarkets metaFull).2 ("a") [] rfl

theorem sum_take_le (l : List ℚ) (n : ℕ) (h : ∀ x ∈ l, 0 ≤ x) :
    (l.take n).sum ≤ l.sum := by
  conv_rhs => rw [← List.take_append_drop n l]
  rw [List.sum_append]
  have hd : 0 ≤ (l.drop n).sum :=
    List.sum_nonneg (fun x hx => h x (List.drop_subset n l hx))
  linarith

/-- C7: for a non-empty holder list sorted by descending amount with
non-negative amounts, the top-5 sum is at most the top-10 sum, both as
raw amounts and as concentration percentages of a positive supply. -/
theorem top5_le_top10 (hs : List Holder) (_hne : hs ≠ [])
    (_hsorted : List.Pairwise (fun a b => b.amount ≤ a.amount) hs)
    (hnn : ∀ h ∈ hs, 0 ≤ h.amount) (ts : ℚ) :
    top5_sum hs ≤ top10_sum hs ∧
    (0 < ts → top5_sum hs / ts * 100 ≤ top10_sum hs / ts * 100) := by
  have key : top5_sum hs ≤ top10_sum hs := by
    unfold top5_sum top10_sum
    have h5 : hs.take 5 = (hs.take 10).take 5 := by
      rw [List.take_take]
      norm_num
    rw [h5, List.map_take]
    apply sum_take_le
    intro x hx
    rcases List.mem_map.mp hx with ⟨y, hy, rfl⟩
    exact hnn y (List.take_subset _ _ hy)
  refine ⟨key, fun hts => ?_⟩
  have h2 : ∀ x : ℚ, x / ts * 100 = x * (100 / ts) := fun x => by ring
  rw [h2, h2]
  exact mul_le_mul_of_nonneg_right key (by positivity)

theorem top5_le_top10_w :
    top5_sum sampleHolders ≤ top10_sum sampleHolders ∧
    top5_sum sampleHolders / 100 * 100 ≤ top10_sum sampleHolders / 100 * 100 :=
  ⟨(top5_le_top10 sampleHolders (by simp [sampleHolders])
      (by norm_num [sampleHolders, List.pairwise_cons])
      (by norm_num [sampleHolders]) 100).1,
   (top5_le_top10 sampleHolders (by simp [sampleHolders])
      (by norm_num [sampleHolders, List.pairwise_cons])
      (by norm_num [sampleHolders]) 100).2 (by norm_num)⟩

theorem char_toNat_lt (c : Char) : c.toNat < 1114112 := by
  rcases c.valid with h | h
  · exact Nat.lt_trans h (by norm_num)
  · exact h.2

theorem utf8Bytes_lt (c : Char) (b : ℕ) (hb : b ∈ utf8Bytes c) : b < 256 := by
  have hc := char_toNat_lt c
  unfold utf8Bytes at hb
  dsimp only at hb
  split_ifs at hb with h1 h2 h3 <;> simp at hb <;> omega

theorem hexDigit_safe (m : ℕ) (hm : m < 16) : isQuoteSafe (hexDigit m) = true := by
  interval_cases m <;> decide

theorem quoteChar_safe (c : Char) (x : Char) (hx : x ∈ quoteChar c) :
    urlSafeOutput x = true := by
  unfold quoteChar at hx
  split_ifs at hx with h
  · simp at hx
    subst hx
    simp [urlSafeOutput, h]
  · rcases List.mem_flatMap.mp hx with ⟨b, hb, hxb⟩
    have hb256 := utf8Bytes_lt c b hb
    have hx3 : x = Char.ofNat 37 ∨ x = hexDigit (b / 16) ∨ x = hexDigit (b % 16) := by
      simpa [pctByteChars] using hxb
    rcases hx3 with h1 | h1 | h1 <;> subst h1
    · decide
    · simp [urlSafeOutput, hexDigit_safe (b / 16) (by omega)]
    · simp [urlSafeOutput, hexDigit_safe (b % 16) (by omega)]

theorem safely_quote_safe (s : String) (x : Char) (hx : x ∈ (safely_quote s).data) :
    urlSafeOutput x = true := by
  have hx2 : x ∈ s.data.flatMap quoteChar := hx
  rcases List.mem_flatMap.mp hx2 with ⟨c, hc, hxc⟩
  exact quoteChar_safe c x hxc

/-- C8 (amended): the token-metadata, meta, and holders URLs embed the
percent-encoded identifier (whose characters are all URL-safe or the
escape character), but the account-transactions URL embeds the
identifier verbatim, unencoded. -/
theorem url_identifier_encoding (id acct : String) (t0 t1 : ℤ) :
    market_url id t0 t1 =
      "https://pro-api.solscan.io/v1.0/market/token/" ++ safely_quote id ++
        "?limit=10&offset=0&startTime=" ++ toString t0 ++ "&endTime=" ++ toString t1 ∧
    meta_url id =
      "https://pro-api.solscan.io/v1.0/token/meta?tokenAddress=" ++ safely_quote id ∧
    holders_url id =
      "https://pro-api.solscan.io/v1.0/token/holders?tokenAddress=" ++ safely_quote id ++
        "&limit=10&offset=0&fromAmount=0" ∧
    (∀ x ∈ (safely_quote id).data, urlSafeOutput x = true) ∧
    account_transactions_url acct =
      "https://pro-api.solscan.io/v1.0/account/transactions?account=" ++ acct ++ "&limit=1" ∧
    safely_quote ("a b") = "a%20b" :=
  ⟨rfl, rfl, rfl, fun x hx => safely_quote_safe id x hx, rfl, by with_unfolding_all rfl⟩

/-- C8 counterexample: `fetch_latest_transaction` embeds its identifier
raw: for the account "a b" the URL differs from the one built with the
percent-encoded identifier. -/
theorem tx_url_unquoted_cex :
    account_transactions_url ("a b") ≠
      "https://pro-api.solscan.io/v1.0/account/transactions?account=" ++
        safely_quote ("a b") ++ "&limit=1" := by
  with_unfolding_all decide

theorem url_identifier_encoding_w :
    meta_url ("a b") =
      "https://pro-api.solscan.io/v1.0/token/meta?tokenAddress=" ++ safely_quote ("a b") ∧
    urlSafeOutput (Char.ofNat 37) = true :=
  ⟨(url_identifier_encoding ("a b") ("x") 0 0).2.1,
   (url_identifier_encoding ("a b") ("x") 0 0).2.2.2.1 (Char.ofNat 37)
     (by with_unfolding_all decide)⟩

theorem normalize_supply_spec_w :
    normalize_supply 5 2 = (5 : ℚ) / 10 ^ 2 ∧ normalize_supply 0 0 = 0 :=
  ⟨(normalize_supply_spec 5 2).1, (normalize_supply_spec 5 2).2.2⟩

theorem unknown_rendering_w :
    price_display none = "N/A" ∧ market_cap 7 none = 0 :=
  ⟨(unknown_rendering (some 3) 7).1, (unknown_rendering (some 3) 7).2.2.1⟩
